import Mathlib

/-!
Shallow embedding of `va/dns.go` from the boulder repository: the DNS-01
challenge validator (`validateDNS01`), the address resolver (`getAddrs`) and
the address classifier (`availableAddresses`), together with the standard
library routines the source calls (`crypto/sha256`, `encoding/base64`
RawURLEncoding, `crypto/subtle.ConstantTimeCompare`, UTF-8 handling).

Go strings and byte slices are modelled as lists of byte values (`List Nat`,
each element intended `< 256`); machine 32-bit arithmetic is `Nat` reduced
modulo `2 ^ 32` where the source relies on wraparound.
-/

/-- Bytes of a Go string or byte slice. All string literals used in the
development are ASCII, so codepoints coincide with bytes. -/
abbrev GoStr := List Nat

/-- Bytes of an ASCII string literal. -/
def gs (s : String) : GoStr := s.data.map Char.toNat

/-! ## crypto/sha256: the FIPS 180-4 SHA-256 function, as called by the source
via `sha256.New() / Write / Sum`. -/

/-- Reduction modulo `2 ^ 32`, the width of the SHA-256 working words. -/
def w32 (x : Nat) : Nat := x % 4294967296

/-- Reduction modulo `2 ^ 8`: one output byte. -/
def w8 (x : Nat) : Nat := x % 256

/-- Right rotation of a 32-bit word. -/
def rotr (n x : Nat) : Nat := w32 ((x >>> n) ||| (x <<< (32 - n)))

/-- The SHA-256 choice function. -/
def chf (x y z : Nat) : Nat := (x &&& y) ^^^ ((x ^^^ 4294967295) &&& z)

/-- The SHA-256 majority function. -/
def maj (x y z : Nat) : Nat := (x &&& y) ^^^ (x &&& z) ^^^ (y &&& z)

/-- The SHA-256 big sigma-0 function. -/
def sum0w (x : Nat) : Nat := rotr 2 x ^^^ rotr 13 x ^^^ rotr 22 x

/-- The SHA-256 big sigma-1 function. -/
def sum1w (x : Nat) : Nat := rotr 6 x ^^^ rotr 11 x ^^^ rotr 25 x

/-- The SHA-256 small sigma-0 function. -/
def sig0w (x : Nat) : Nat := rotr 7 x ^^^ rotr 18 x ^^^ (x >>> 3)

/-- The SHA-256 small sigma-1 function. -/
def sig1w (x : Nat) : Nat := rotr 17 x ^^^ rotr 19 x ^^^ (x >>> 10)

/-- The 64 SHA-256 round constants. -/
def K256 : List Nat :=
  [1116352408, 1899447441, 3049323471, 3921009573, 961987163, 1508970993,
   2453635748, 2870763221, 3624381080, 310598401, 607225278, 1426881987,
   1925078388, 2162078206, 2614888103, 3248222580, 3835390401, 4022224774,
   264347078, 604807628, 770255983, 1249150122, 1555081692, 1996064986,
   2554220882, 2821834349, 2952996808, 3210313671, 3336571891, 3584528711,
   113926993, 338241895, 666307205, 773529912, 1294757372, 1396182291,
   1695183700, 1986661051, 2177026350, 2456956037, 2730485921, 2820302411,
   3259730800, 3345764771, 3516065817, 3600352804, 4094571909, 275423344,
   430227734, 506948616, 659060556, 883997877, 958139571, 1322822218,
   1537002063, 1747873779, 1955562222, 2024104815, 2227730452, 2361852424,
   2428436474, 2756734187, 3204031479, 3329325298]

/-- The eight 32-bit words of a SHA-256 state. -/
structure Hash8 where
  a : Nat
  b : Nat
  c : Nat
  d : Nat
  e : Nat
  f : Nat
  g : Nat
  h : Nat

/-- The SHA-256 initial hash value. -/
def H0 : Hash8 :=
  ⟨1779033703, 3144134277, 1013904242, 2773480762,
   1359893119, 2600822924, 528734635, 1541459225⟩

/-- Big-endian packing of bytes into 32-bit words (a full block gives 16). -/
def bytesToWords32 : List Nat → List Nat
  | b0 :: b1 :: b2 :: b3 :: rest =>
      (b0 * 16777216 + b1 * 65536 + b2 * 256 + b3) :: bytesToWords32 rest
  | _ => []

/-- Extension of the 16 block words to the 64-entry message schedule;
the first argument is the number of words still to append (48). -/
def msgSchedule : Nat → List Nat → List Nat
  | 0, ws => ws
  | n + 1, ws =>
      let t := ws.length
      let w := w32 (sig1w (ws.getD (t - 2) 0) + ws.getD (t - 7) 0 +
                    sig0w (ws.getD (t - 15) 0) + ws.getD (t - 16) 0)
      msgSchedule n (ws ++ [w])

/-- One SHA-256 compression round with round constant `k` and schedule word
`w`. -/
def shaRound (s : Hash8) (k : Nat) (w : Nat) : Hash8 :=
  let t1 := w32 (s.h + sum1w s.e + chf s.e s.f s.g + k + w)
  let t2 := w32 (sum0w s.a + maj s.a s.b s.c)
  ⟨w32 (t1 + t2), s.a, s.b, s.c, w32 (s.d + t1), s.e, s.f, s.g⟩

/-- Compression of one 64-byte block into the chaining state. -/
def compressBlock (s : Hash8) (block : List Nat) : Hash8 :=
  let ws := msgSchedule 48 (bytesToWords32 block)
  let t := (K256.zip ws).foldl (fun st kw => shaRound st kw.1 kw.2) s
  ⟨w32 (s.a + t.a), w32 (s.b + t.b), w32 (s.c + t.c), w32 (s.d + t.d),
   w32 (s.e + t.e), w32 (s.f + t.f), w32 (s.g + t.g), w32 (s.h + t.h)⟩

/-- Big-endian bytes of a 64-bit length field. -/
def be64 (n : Nat) : List Nat :=
  [w8 (n >>> 56), w8 (n >>> 48), w8 (n >>> 40), w8 (n >>> 32),
   w8 (n >>> 24), w8 (n >>> 16), w8 (n >>> 8), w8 n]

/-- Big-endian bytes of a 32-bit word. -/
def be32 (x : Nat) : List Nat :=
  [w8 (x >>> 24), w8 (x >>> 16), w8 (x >>> 8), w8 x]

/-- Number of zero bytes of SHA-256 padding for a message of `n` bytes. -/
def padZeros (n : Nat) : Nat := (64 + 55 - n % 64) % 64

/-- Fuel-indexed chunking of a byte list into 64-byte blocks; the fuel bounds
the number of blocks and makes the recursion structural. -/
def chunks64Fuel : Nat → List Nat → List (List Nat)
  | 0, _ => []
  | _, [] => []
  | fuel + 1, b :: rest => ((b :: rest).take 64) :: chunks64Fuel fuel ((b :: rest).drop 64)

/-- A padded message split into 64-byte blocks (the length is ample fuel:
every block consumes at least one byte). -/
def chunks64 (l : List Nat) : List (List Nat) := chunks64Fuel l.length l

/-- SHA-256 of a byte string: padding, block iteration, big-endian output. -/
def sha256 (msg : List Nat) : List Nat :=
  let padded := msg ++ [128] ++ List.replicate (padZeros msg.length) 0 ++
                be64 (8 * msg.length)
  let s := (chunks64 padded).foldl compressBlock H0
  be32 s.a ++ be32 s.b ++ be32 s.c ++ be32 s.d ++
  be32 s.e ++ be32 s.f ++ be32 s.g ++ be32 s.h

/-! ## encoding/base64: the RawURLEncoding (URL-safe alphabet, no padding)
used by the source for the key-authorization digest. -/

/-- Byte of the URL-safe base64 alphabet at index `n` (for `n < 64`). -/
def b64Char (n : Nat) : Nat :=
  if n < 26 then 65 + n
  else if n < 52 then 97 + (n - 26)
  else if n < 62 then 48 + (n - 52)
  else if n = 62 then 45
  else 95

/-- Base64 URL-safe encoding without padding (Go `base64.RawURLEncoding`). -/
def base64RawURLEncode : List Nat → List Nat
  | b0 :: b1 :: b2 :: rest =>
      b64Char (b0 >>> 2) ::
      b64Char (((b0 % 4) <<< 4) ||| (b1 >>> 4)) ::
      b64Char (((b1 % 16) <<< 2) ||| (b2 >>> 6)) ::
      b64Char (b2 % 64) ::
      base64RawURLEncode rest
  | [b0, b1] =>
      [b64Char (b0 >>> 2), b64Char (((b0 % 4) <<< 4) ||| (b1 >>> 4)),
       b64Char ((b1 % 16) <<< 2)]
  | [b0] => [b64Char (b0 >>> 2), b64Char ((b0 % 4) <<< 4)]
  | [] => []

/-- The expected DNS-01 proof: base64url-no-padding of the SHA-256 digest of
the key authorization (`validateDNS01` lines 53-55 of `va/dns.go`). -/
def authorizedKeysDigest (keyAuthorization : GoStr) : GoStr :=
  base64RawURLEncode (sha256 keyAuthorization)

/-! ## crypto/subtle: `ConstantTimeCompare`, as called by the source. The loop
is embedded together with an iteration counter so that its running time, in
the cost model "number of loop iterations", is a definable quantity. -/

/-- The accumulation loop of `subtle.ConstantTimeCompare`: first component is
the accumulated OR of bytewise XORs, second the number of iterations run. -/
def ctLoop : List Nat → List Nat → Nat → Nat × Nat
  | x :: xs, y :: ys, v =>
      let r := ctLoop xs ys (v ||| (x ^^^ y))
      (r.1, r.2 + 1)
  | _, _, v => (v, 0)

/-- Go `subtle.ConstantTimeByteEq`: `int((uint32(x^y) - 1) >> 31)`, with the
unsigned wraparound of the subtraction made explicit. -/
def constantTimeByteEq (x y : Nat) : Nat :=
  ((w32 (x ^^^ y) + 4294967295) % 4294967296) >>> 31

/-- Go `subtle.ConstantTimeCompare`: 0 on length mismatch, otherwise 1 exactly
when the accumulated XOR is zero. -/
def subtleConstantTimeCompare (x y : List Nat) : Nat :=
  if x.length ≠ y.length then 0
  else constantTimeByteEq (ctLoop x y 0).1 0

/-- Number of loop iterations performed by `subtleConstantTimeCompare`: the
cost of a comparison in the iteration-count model. -/
def constantTimeCompareSteps (x y : List Nat) : Nat :=
  if x.length ≠ y.length then 0 else (ctLoop x y 0).2

/-! ## UTF-8 handling. `replaceInvalidUTF8` lives in `va/va.go`, which is not
part of the excerpt; it is modelled from the spec (§7, §9: repair invalid
byte sequences before display), following Go's string conversion semantics:
each byte that does not start a valid UTF-8 encoding is replaced by the
Unicode replacement character U+FFFD and decoding resumes at the next byte. -/

/-- A UTF-8 continuation byte. -/
def cont (b : Nat) : Bool := 128 ≤ b && b ≤ 191

/-- Allowed second byte of a three-byte sequence with leading byte `b0`
(excludes overlong encodings and surrogates, as Go does). -/
def mid3 (b0 b1 : Nat) : Bool :=
  if b0 = 224 then 160 ≤ b1 && b1 ≤ 191
  else if b0 = 237 then 128 ≤ b1 && b1 ≤ 159
  else cont b1

/-- Allowed second byte of a four-byte sequence with leading byte `b0`
(excludes overlong encodings and values above U+10FFFF, as Go does). -/
def mid4 (b0 b1 : Nat) : Bool :=
  if b0 = 240 then 144 ≤ b1 && b1 ≤ 191
  else if b0 = 244 then 128 ≤ b1 && b1 ≤ 143
  else cont b1

/-- A valid two-byte UTF-8 sequence. -/
def twoOK (b0 b1 : Nat) : Bool := 194 ≤ b0 && b0 ≤ 223 && cont b1

/-- A valid three-byte UTF-8 sequence. -/
def threeOK (b0 b1 b2 : Nat) : Bool := 224 ≤ b0 && b0 ≤ 239 && mid3 b0 b1 && cont b2

/-- A valid four-byte UTF-8 sequence. -/
def fourOK (b0 b1 b2 b3 : Nat) : Bool :=
  240 ≤ b0 && b0 ≤ 244 && mid4 b0 b1 && cont b2 && cont b3

/-- Whether a byte string is well-formed UTF-8 (Go `utf8.Valid`). -/
def utf8Valid : List Nat → Bool
  | [] => true
  | [b0] => b0 < 128
  | [b0, b1] =>
    if b0 < 128 then utf8Valid [b1]
    else twoOK b0 b1
  | [b0, b1, b2] =>
    if b0 < 128 then utf8Valid [b1, b2]
    else if twoOK b0 b1 then utf8Valid [b2]
    else threeOK b0 b1 b2
  | b0 :: b1 :: b2 :: b3 :: rest =>
    if b0 < 128 then utf8Valid (b1 :: b2 :: b3 :: rest)
    else if twoOK b0 b1 then utf8Valid (b2 :: b3 :: rest)
    else if threeOK b0 b1 b2 then utf8Valid (b3 :: rest)
    else if fourOK b0 b1 b2 b3 then utf8Valid rest
    else false

/-- Bytes of the Unicode replacement character U+FFFD. -/
def rcBytes : List Nat := [239, 191, 189]

/-- Modelled from the spec: `replaceInvalidUTF8` of `va/va.go` (not in the
excerpt). Repairs a byte string into well-formed UTF-8: valid sequences are
copied, every byte that does not begin a valid sequence in the remaining
input becomes U+FFFD, and decoding resumes at the following byte. -/
def replaceInvalidUTF8 : List Nat → List Nat
  | [] => []
  | [b0] => if b0 < 128 then [b0] else rcBytes
  | [b0, b1] =>
    if b0 < 128 then b0 :: replaceInvalidUTF8 [b1]
    else if twoOK b0 b1 then [b0, b1]
    else rcBytes ++ replaceInvalidUTF8 [b1]
  | [b0, b1, b2] =>
    if b0 < 128 then b0 :: replaceInvalidUTF8 [b1, b2]
    else if twoOK b0 b1 then b0 :: b1 :: replaceInvalidUTF8 [b2]
    else if threeOK b0 b1 b2 then [b0, b1, b2]
    else rcBytes ++ replaceInvalidUTF8 [b1, b2]
  | b0 :: b1 :: b2 :: b3 :: rest =>
    if b0 < 128 then b0 :: replaceInvalidUTF8 (b1 :: b2 :: b3 :: rest)
    else if twoOK b0 b1 then b0 :: b1 :: replaceInvalidUTF8 (b2 :: b3 :: rest)
    else if threeOK b0 b1 b2 then b0 :: b1 :: b2 :: replaceInvalidUTF8 (b3 :: rest)
    else if fourOK b0 b1 b2 b3 then b0 :: b1 :: b2 :: b3 :: replaceInvalidUTF8 rest
    else rcBytes ++ replaceInvalidUTF8 (b1 :: b2 :: b3 :: rest)

/-! ## Go fmt helpers used by the failure message: `%q` (strconv quoting of
the already-sanitized record) and `%d` (decimal). -/

/-- One hexadecimal digit byte (lowercase, as Go emits). -/
def hexDigit (n : Nat) : Nat := if n < 10 then 48 + n else 87 + n

/-- Closed ranges of printable runes above U+00FF: the Unicode categories
L, M, N, P and S, which is the printability rule Go's `strconv.IsPrint`
documents and tabulates. -/
def isPrintRanges : List (Nat × Nat) :=
  [(256, 887), (890, 895), (900, 906), (908, 908), (910, 929),
   (931, 1327), (1329, 1366), (1369, 1418), (1421, 1423), (1425, 1479),
   (1488, 1514), (1519, 1524), (1542, 1563), (1565, 1756), (1758, 1805),
   (1808, 1866), (1869, 1969), (1984, 2042), (2045, 2093), (2096, 2110),
   (2112, 2139), (2142, 2142), (2144, 2154), (2160, 2190), (2200, 2273),
   (2275, 2435), (2437, 2444), (2447, 2448), (2451, 2472), (2474, 2480),
   (2482, 2482), (2486, 2489), (2492, 2500), (2503, 2504), (2507, 2510),
   (2519, 2519), (2524, 2525), (2527, 2531), (2534, 2558), (2561, 2563),
   (2565, 2570), (2575, 2576), (2579, 2600), (2602, 2608), (2610, 2611),
   (2613, 2614), (2616, 2617), (2620, 2620), (2622, 2626), (2631, 2632),
   (2635, 2637), (2641, 2641), (2649, 2652), (2654, 2654), (2662, 2678),
   (2689, 2691), (2693, 2701), (2703, 2705), (2707, 2728), (2730, 2736),
   (2738, 2739), (2741, 2745), (2748, 2757), (2759, 2761), (2763, 2765),
   (2768, 2768), (2784, 2787), (2790, 2801), (2809, 2815), (2817, 2819),
   (2821, 2828), (2831, 2832), (2835, 2856), (2858, 2864), (2866, 2867),
   (2869, 2873), (2876, 2884), (2887, 2888), (2891, 2893), (2901, 2903),
   (2908, 2909), (2911, 2915), (2918, 2935), (2946, 2947), (2949, 2954),
   (2958, 2960), (2962, 2965), (2969, 2970), (2972, 2972), (2974, 2975),
   (2979, 2980), (2984, 2986), (2990, 3001), (3006, 3010), (3014, 3016),
   (3018, 3021), (3024, 3024), (3031, 3031), (3046, 3066), (3072, 3084),
   (3086, 3088), (3090, 3112), (3114, 3129), (3132, 3140), (3142, 3144),
   (3146, 3149), (3157, 3158), (3160, 3162), (3165, 3165), (3168, 3171),
   (3174, 3183), (3191, 3212), (3214, 3216), (3218, 3240), (3242, 3251),
   (3253, 3257), (3260, 3268), (3270, 3272), (3274, 3277), (3285, 3286),
   (3293, 3294), (3296, 3299), (3302, 3311), (3313, 3314), (3328, 3340),
   (3342, 3344), (3346, 3396), (3398, 3400), (3402, 3407), (3412, 3427),
   (3430, 3455), (3457, 3459), (3461, 3478), (3482, 3505), (3507, 3515),
   (3517, 3517), (3520, 3526), (3530, 3530), (3535, 3540), (3542, 3542),
   (3544, 3551), (3558, 3567), (3570, 3572), (3585, 3642), (3647, 3675),
   (3713, 3714), (3716, 3716), (3718, 3722), (3724, 3747), (3749, 3749),
   (3751, 3773), (3776, 3780), (3782, 3782), (3784, 3789), (3792, 3801),
   (3804, 3807), (3840, 3911), (3913, 3948), (3953, 3991), (3993, 4028),
   (4030, 4044), (4046, 4058), (4096, 4293), (4295, 4295), (4301, 4301),
   (4304, 4680), (4682, 4685), (4688, 4694), (4696, 4696), (4698, 4701),
   (4704, 4744), (4746, 4749), (4752, 4784), (4786, 4789), (4792, 4798),
   (4800, 4800), (4802, 4805), (4808, 4822), (4824, 4880), (4882, 4885),
   (4888, 4954), (4957, 4988), (4992, 5017), (5024, 5109), (5112, 5117),
   (5120, 5759), (5761, 5788), (5792, 5880), (5888, 5909), (5919, 5942),
   (5952, 5971), (5984, 5996), (5998, 6000), (6002, 6003), (6016, 6109),
   (6112, 6121), (6128, 6137), (6144, 6157), (6159, 6169), (6176, 6264),
   (6272, 6314), (6320, 6389), (6400, 6430), (6432, 6443), (6448, 6459),
   (6464, 6464), (6468, 6509), (6512, 6516), (6528, 6571), (6576, 6601),
   (6608, 6618), (6622, 6683), (6686, 6750), (6752, 6780), (6783, 6793),
   (6800, 6809), (6816, 6829), (6832, 6862), (6912, 6988), (6992, 7038),
   (7040, 7155), (7164, 7223), (7227, 7241), (7245, 7304), (7312, 7354),
   (7357, 7367), (7376, 7418), (7424, 7957), (7960, 7965), (7968, 8005),
   (8008, 8013), (8016, 8023), (8025, 8025), (8027, 8027), (8029, 8029),
   (8031, 8061), (8064, 8116), (8118, 8132), (8134, 8147), (8150, 8155),
   (8157, 8175), (8178, 8180), (8182, 8190), (8208, 8231), (8240, 8286),
   (8304, 8305), (8308, 8334), (8336, 8348), (8352, 8384), (8400, 8432),
   (8448, 8587), (8592, 9254), (9280, 9290), (9312, 11123), (11126, 11157),
   (11159, 11507), (11513, 11557), (11559, 11559), (11565, 11565), (11568, 11623),
   (11631, 11632), (11647, 11670), (11680, 11686), (11688, 11694), (11696, 11702),
   (11704, 11710), (11712, 11718), (11720, 11726), (11728, 11734), (11736, 11742),
   (11744, 11869), (11904, 11929), (11931, 12019), (12032, 12245), (12272, 12283),
   (12289, 12351), (12353, 12438), (12441, 12543), (12549, 12591), (12593, 12686),
   (12688, 12771), (12784, 12830), (12832, 42124), (42128, 42182), (42192, 42539),
   (42560, 42743), (42752, 42954), (42960, 42961), (42963, 42963), (42965, 42969),
   (42994, 43052), (43056, 43065), (43072, 43127), (43136, 43205), (43214, 43225),
   (43232, 43347), (43359, 43388), (43392, 43469), (43471, 43481), (43486, 43518),
   (43520, 43574), (43584, 43597), (43600, 43609), (43612, 43714), (43739, 43766),
   (43777, 43782), (43785, 43790), (43793, 43798), (43808, 43814), (43816, 43822),
   (43824, 43883), (43888, 44013), (44016, 44025), (44032, 55203), (55216, 55238),
   (55243, 55291), (63744, 64109), (64112, 64217), (64256, 64262), (64275, 64279),
   (64285, 64310), (64312, 64316), (64318, 64318), (64320, 64321), (64323, 64324),
   (64326, 64450), (64467, 64911), (64914, 64967), (64975, 64975), (65008, 65049),
   (65056, 65106), (65108, 65126), (65128, 65131), (65136, 65140), (65142, 65276),
   (65281, 65470), (65474, 65479), (65482, 65487), (65490, 65495), (65498, 65500),
   (65504, 65510), (65512, 65518), (65532, 65533), (65536, 65547), (65549, 65574),
   (65576, 65594), (65596, 65597), (65599, 65613), (65616, 65629), (65664, 65786),
   (65792, 65794), (65799, 65843), (65847, 65934), (65936, 65948), (65952, 65952),
   (66000, 66045), (66176, 66204), (66208, 66256), (66272, 66299), (66304, 66339),
   (66349, 66378), (66384, 66426), (66432, 66461), (66463, 66499), (66504, 66517),
   (66560, 66717), (66720, 66729), (66736, 66771), (66776, 66811), (66816, 66855),
   (66864, 66915), (66927, 66938), (66940, 66954), (66956, 66962), (66964, 66965),
   (66967, 66977), (66979, 66993), (66995, 67001), (67003, 67004), (67072, 67382),
   (67392, 67413), (67424, 67431), (67456, 67461), (67463, 67504), (67506, 67514),
   (67584, 67589), (67592, 67592), (67594, 67637), (67639, 67640), (67644, 67644),
   (67647, 67669), (67671, 67742), (67751, 67759), (67808, 67826), (67828, 67829),
   (67835, 67867), (67871, 67897), (67903, 67903), (67968, 68023), (68028, 68047),
   (68050, 68099), (68101, 68102), (68108, 68115), (68117, 68119), (68121, 68149),
   (68152, 68154), (68159, 68168), (68176, 68184), (68192, 68255), (68288, 68326),
   (68331, 68342), (68352, 68405), (68409, 68437), (68440, 68466), (68472, 68497),
   (68505, 68508), (68521, 68527), (68608, 68680), (68736, 68786), (68800, 68850),
   (68858, 68903), (68912, 68921), (69216, 69246), (69248, 69289), (69291, 69293),
   (69296, 69297), (69376, 69415), (69424, 69465), (69488, 69513), (69552, 69579),
   (69600, 69622), (69632, 69709), (69714, 69749), (69759, 69820), (69822, 69826),
   (69840, 69864), (69872, 69881), (69888, 69940), (69942, 69959), (69968, 70006),
   (70016, 70111), (70113, 70132), (70144, 70161), (70163, 70206), (70272, 70278),
   (70280, 70280), (70282, 70285), (70287, 70301), (70303, 70313), (70320, 70378),
   (70384, 70393), (70400, 70403), (70405, 70412), (70415, 70416), (70419, 70440),
   (70442, 70448), (70450, 70451), (70453, 70457), (70459, 70468), (70471, 70472),
   (70475, 70477), (70480, 70480), (70487, 70487), (70493, 70499), (70502, 70508),
   (70512, 70516), (70656, 70747), (70749, 70753), (70784, 70855), (70864, 70873),
   (71040, 71093), (71096, 71133), (71168, 71236), (71248, 71257), (71264, 71276),
   (71296, 71353), (71360, 71369), (71424, 71450), (71453, 71467), (71472, 71494),
   (71680, 71739), (71840, 71922), (71935, 71942), (71945, 71945), (71948, 71955),
   (71957, 71958), (71960, 71989), (71991, 71992), (71995, 72006), (72016, 72025),
   (72096, 72103), (72106, 72151), (72154, 72164), (72192, 72263), (72272, 72354),
   (72368, 72440), (72704, 72712), (72714, 72758), (72760, 72773), (72784, 72812),
   (72816, 72847), (72850, 72871), (72873, 72886), (72960, 72966), (72968, 72969),
   (72971, 73014), (73018, 73018), (73020, 73021), (73023, 73031), (73040, 73049),
   (73056, 73061), (73063, 73064), (73066, 73102), (73104, 73105), (73107, 73112),
   (73120, 73129), (73440, 73464), (73648, 73648), (73664, 73713), (73727, 74649),
   (74752, 74862), (74864, 74868), (74880, 75075), (77712, 77810), (77824, 78894),
   (82944, 83526), (92160, 92728), (92736, 92766), (92768, 92777), (92782, 92862),
   (92864, 92873), (92880, 92909), (92912, 92917), (92928, 92997), (93008, 93017),
   (93019, 93025), (93027, 93047), (93053, 93071), (93760, 93850), (93952, 94026),
   (94031, 94087), (94095, 94111), (94176, 94180), (94192, 94193), (94208, 100343),
   (100352, 101589), (101632, 101640), (110576, 110579), (110581, 110587), (110589, 110590),
   (110592, 110882), (110928, 110930), (110948, 110951), (110960, 111355), (113664, 113770),
   (113776, 113788), (113792, 113800), (113808, 113817), (113820, 113823), (118528, 118573),
   (118576, 118598), (118608, 118723), (118784, 119029), (119040, 119078), (119081, 119154),
   (119163, 119274), (119296, 119365), (119520, 119539), (119552, 119638), (119648, 119672),
   (119808, 119892), (119894, 119964), (119966, 119967), (119970, 119970), (119973, 119974),
   (119977, 119980), (119982, 119993), (119995, 119995), (119997, 120003), (120005, 120069),
   (120071, 120074), (120077, 120084), (120086, 120092), (120094, 120121), (120123, 120126),
   (120128, 120132), (120134, 120134), (120138, 120144), (120146, 120485), (120488, 120779),
   (120782, 121483), (121499, 121503), (121505, 121519), (122624, 122654), (122880, 122886),
   (122888, 122904), (122907, 122913), (122915, 122916), (122918, 122922), (123136, 123180),
   (123184, 123197), (123200, 123209), (123214, 123215), (123536, 123566), (123584, 123641),
   (123647, 123647), (124896, 124902), (124904, 124907), (124909, 124910), (124912, 124926),
   (124928, 125124), (125127, 125142), (125184, 125259), (125264, 125273), (125278, 125279),
   (126065, 126132), (126209, 126269), (126464, 126467), (126469, 126495), (126497, 126498),
   (126500, 126500), (126503, 126503), (126505, 126514), (126516, 126519), (126521, 126521),
   (126523, 126523), (126530, 126530), (126535, 126535), (126537, 126537), (126539, 126539),
   (126541, 126543), (126545, 126546), (126548, 126548), (126551, 126551), (126553, 126553),
   (126555, 126555), (126557, 126557), (126559, 126559), (126561, 126562), (126564, 126564),
   (126567, 126570), (126572, 126578), (126580, 126583), (126585, 126588), (126590, 126590),
   (126592, 126601), (126603, 126619), (126625, 126627), (126629, 126633), (126635, 126651),
   (126704, 126705), (126976, 127019), (127024, 127123), (127136, 127150), (127153, 127167),
   (127169, 127183), (127185, 127221), (127232, 127405), (127462, 127490), (127504, 127547),
   (127552, 127560), (127568, 127569), (127584, 127589), (127744, 128727), (128733, 128748),
   (128752, 128764), (128768, 128883), (128896, 128984), (128992, 129003), (129008, 129008),
   (129024, 129035), (129040, 129095), (129104, 129113), (129120, 129159), (129168, 129197),
   (129200, 129201), (129280, 129619), (129632, 129645), (129648, 129652), (129656, 129660),
   (129664, 129670), (129680, 129708), (129712, 129722), (129728, 129733), (129744, 129753),
   (129760, 129767), (129776, 129782), (129792, 129938), (129940, 129994), (130032, 130041),
   (131072, 173791), (173824, 177976), (177984, 178205), (178208, 183969), (183984, 191456),
   (194560, 195101), (196608, 201546), (917760, 917999)]

/-- Go `strconv.IsPrint`: the exact Latin-1 fast path, and the category
ranges above for higher runes. -/
def goIsPrint (r : Nat) : Bool :=
  if r ≤ 255 then
    (32 ≤ r && r ≤ 126) || (161 ≤ r && r ≤ 255 && r != 173)
  else
    isPrintRanges.any (fun p => p.1 ≤ r && r ≤ p.2)

/-- Standard UTF-8 encoding of a rune value. -/
def utf8EncodeRune (r : Nat) : List Nat :=
  if r < 128 then [r]
  else if r < 2048 then [192 + r / 64, 128 + r % 64]
  else if r < 65536 then [224 + r / 4096, 128 + r / 64 % 64, 128 + r % 64]
  else [240 + r / 262144, 128 + r / 4096 % 64, 128 + r / 64 % 64, 128 + r % 64]

/-- Rune value of a valid two-byte UTF-8 sequence. -/
def rune2 (b0 b1 : Nat) : Nat := (b0 - 192) * 64 + (b1 - 128)

/-- Rune value of a valid three-byte UTF-8 sequence. -/
def rune3 (b0 b1 b2 : Nat) : Nat := (b0 - 224) * 4096 + (b1 - 128) * 64 + (b2 - 128)

/-- Rune value of a valid four-byte UTF-8 sequence. -/
def rune4 (b0 b1 b2 b3 : Nat) : Nat :=
  (b0 - 240) * 262144 + (b1 - 128) * 4096 + (b2 - 128) * 64 + (b3 - 128)

/-- Go byte escape as emitted by `strconv.Quote` for stray bytes and
non-printable ASCII. -/
def escX (b : Nat) : List Nat := [92, 120, hexDigit (b / 16), hexDigit (b % 16)]

/-- Four lowercase hex digits of a rune below U+10000. -/
def hex4 (r : Nat) : List Nat :=
  [hexDigit (r / 4096 % 16), hexDigit (r / 256 % 16), hexDigit (r / 16 % 16),
   hexDigit (r % 16)]

/-- Eight lowercase hex digits of a rune. -/
def hex8 (r : Nat) : List Nat :=
  [hexDigit (r / 268435456 % 16), hexDigit (r / 16777216 % 16),
   hexDigit (r / 1048576 % 16), hexDigit (r / 65536 % 16),
   hexDigit (r / 4096 % 16), hexDigit (r / 256 % 16), hexDigit (r / 16 % 16),
   hexDigit (r % 16)]

/-- Escaping of one decoded rune, following Go `strconv.Quote` with a double
quote: quote and backslash are backslash-escaped, printable runes are copied
in UTF-8, the named control escapes come next, remaining ASCII controls and
DEL become backslash-x, and the other non-printable runes become
backslash-u or backslash-U hex escapes. -/
def goQuoteRune (r : Nat) : List Nat :=
  if r = 34 then [92, 34]
  else if r = 92 then [92, 92]
  else if goIsPrint r then utf8EncodeRune r
  else if r = 7 then [92, 97]
  else if r = 8 then [92, 98]
  else if r = 12 then [92, 102]
  else if r = 10 then [92, 110]
  else if r = 13 then [92, 114]
  else if r = 9 then [92, 116]
  else if r = 11 then [92, 118]
  else if r < 32 || r = 127 then escX r
  else if r < 65536 then [92, 117] ++ hex4 r
  else [92, 85] ++ hex8 r

/-- Modelled from Go `strconv.Quote` as invoked by `fmt`'s `%q`: the byte
string is decoded rune by rune (a byte starting no valid sequence is emitted
as a backslash-x byte escape, as Go does for stray bytes) and each rune is
escaped by `goQuoteRune`. -/
def goQuoteBytes : List Nat → List Nat
  | [] => []
  | [b0] => if b0 < 128 then goQuoteRune b0 else escX b0
  | [b0, b1] =>
    if b0 < 128 then goQuoteRune b0 ++ goQuoteBytes [b1]
    else if twoOK b0 b1 then goQuoteRune (rune2 b0 b1)
    else escX b0 ++ goQuoteBytes [b1]
  | [b0, b1, b2] =>
    if b0 < 128 then goQuoteRune b0 ++ goQuoteBytes [b1, b2]
    else if twoOK b0 b1 then goQuoteRune (rune2 b0 b1) ++ goQuoteBytes [b2]
    else if threeOK b0 b1 b2 then goQuoteRune (rune3 b0 b1 b2)
    else escX b0 ++ goQuoteBytes [b1, b2]
  | b0 :: b1 :: b2 :: b3 :: rest =>
    if b0 < 128 then goQuoteRune b0 ++ goQuoteBytes (b1 :: b2 :: b3 :: rest)
    else if twoOK b0 b1 then goQuoteRune (rune2 b0 b1) ++ goQuoteBytes (b2 :: b3 :: rest)
    else if threeOK b0 b1 b2 then goQuoteRune (rune3 b0 b1 b2) ++ goQuoteBytes (b3 :: rest)
    else if fourOK b0 b1 b2 b3 then
      goQuoteRune (rune4 b0 b1 b2 b3) ++ goQuoteBytes rest
    else escX b0 ++ goQuoteBytes (b1 :: b2 :: b3 :: rest)

/-- Go `%q` of a byte string: double quotes around the escaped content. -/
def goQuote (s : List Nat) : List Nat := 34 :: goQuoteBytes s ++ [34]

/-- Go `%d` of a natural number: decimal digit bytes. -/
def goItoa (n : Nat) : GoStr := (Nat.repr n).data.map Char.toNat

/-! ## Data model of `core` and `probs` (modelled from the spec: the `core`
and `probs` packages are not part of the excerpt). -/

/-- Modelled from the spec: `core.IdentifierType` is a string type and
`core.IdentifierDNS` is the DNS identifier type constant. -/
def IdentifierDNS : GoStr := gs "dns"

/-- The `core.AcmeIdentifier` fields used by the source. -/
structure AcmeIdentifier where
  idType : GoStr
  value : GoStr
  deriving DecidableEq

/-- The `core.Challenge` field used by the source. -/
structure Challenge where
  providedKeyAuthorization : GoStr
  deriving DecidableEq

/-- The `core.ValidationRecord` fields used by the source. -/
structure ValidationRecord where
  hostname : GoStr
  authorities : List GoStr
  deriving DecidableEq

/-- Modelled from the spec: the problem taxonomy of the `probs` package
(§7: `Malformed | DNS | UnknownHost | Unauthorized`). -/
inductive ProbKind where
  | malformed
  | dns
  | unknownHost
  | unauthorized
  deriving DecidableEq

/-- Modelled from the spec: `probs.ProblemDetails` as a typed kind plus a
detail string. -/
structure ProblemDetails where
  kind : ProbKind
  detail : GoStr
  deriving DecidableEq

/-- Modelled from the spec: `probs.Malformed` builds a Malformed problem from
its (formatted) detail. -/
def probsMalformed (detail : GoStr) : ProblemDetails := ⟨ProbKind.malformed, detail⟩

/-- Modelled from the spec: `probs.DNS` builds a DNS problem from its
(formatted) detail. -/
def probsDNS (detail : GoStr) : ProblemDetails := ⟨ProbKind.dns, detail⟩

/-- Modelled from the spec: `probs.UnknownHost` builds an UnknownHost problem
from its (formatted) detail. -/
def probsUnknownHost (detail : GoStr) : ProblemDetails := ⟨ProbKind.unknownHost, detail⟩

/-- Modelled from the spec: `probs.Unauthorized` builds an Unauthorized
problem from its (formatted) detail. -/
def probsUnauthorized (detail : GoStr) : ProblemDetails := ⟨ProbKind.unauthorized, detail⟩

/-- Modelled from the spec: `core.DNSPrefix`, the fixed protocol constant
prefixed to the identifier value (§4.4 step 3: the literal
`_acme-challenge`). -/
def challengeLabel : GoStr := gs "_acme-challenge"

/-- Outcome of one call to the injected `dnsClient.LookupTXT` capability:
either an error, or the TXT values plus the answering authorities. -/
inductive TXTResult where
  | err (msg : GoStr)
  | ok (txts : List GoStr) (authorities : List GoStr)
  deriving DecidableEq

/-- Outcome of one call to the injected `dnsClient.LookupHost` capability. -/
inductive HostResult where
  | err (msg : GoStr)
  | ok (addrs : List GoStr)
  deriving DecidableEq

/-- The injected DNS capability (`va.dnsClient`), as response functions from
the queried name to the call's outcome. -/
structure DNSClient where
  lookupTXT : GoStr → TXTResult
  lookupHost : GoStr → HostResult

/-! ## The three functions of `va/dns.go`. Go's `(slice, *ProblemDetails)`
returns are modelled as pairs of options, keeping nil observable;
`validateDNS01` additionally returns the list of names it queried, so that
"no DNS query is issued" is a statement about the embedding. -/

/-- Embedding of `getAddrs` (`va/dns.go` lines 19-31): `LookupHost` error
becomes a DNS problem with the error text, zero addresses an UnknownHost
problem naming the hostname, otherwise the address list passes through. -/
def getAddrs (va : DNSClient) (hostname : GoStr) :
    Option (List GoStr) × Option ProblemDetails :=
  match va.lookupHost hostname with
  | HostResult.err e => (none, some (probsDNS e))
  | HostResult.ok addrs =>
    if addrs.length = 0 then
      (none, some (probsUnknownHost (gs "No valid IP addresses found for " ++ hostname)))
    else (some addrs, none)

/-- Embedding of `net.IP.To4`: a 4-byte address is returned as is, a 16-byte
IPv4-mapped address (ten zero bytes, then 255 255) is returned as its last
four bytes, anything else gives nil. -/
def goTo4 (ip : GoStr) : Option GoStr :=
  if ip.length = 4 then some ip
  else if ip.length = 16 && ip.take 10 = List.replicate 10 0
          && ip.getD 10 0 = 255 && ip.getD 11 0 = 255 then
    some (ip.drop 12)
  else none

/-- Embedding of `availableAddresses` (`va/dns.go` lines 35-44): one pass over
the addresses, appending each to the v4 list when `To4` is non-nil and to the
v6 list otherwise. -/
def availableAddresses : List GoStr → List GoStr × List GoStr
  | [] => ([], [])
  | addr :: rest =>
    let r := availableAddresses rest
    if (goTo4 addr).isSome then (addr :: r.1, r.2) else (r.1, addr :: r.2)

/-- The queried name of `validateDNS01` (`va/dns.go` line 58): the fixed
protocol label, a dot, and the identifier value. -/
def challengeSubdomain (identifier : AcmeIdentifier) : GoStr :=
  challengeLabel ++ gs "." ++ identifier.value

/-- Embedding of `validateDNS01` (`va/dns.go` lines 46-93). The second
component of the result collects the names passed to `LookupTXT`. -/
def validateDNS01 (va : DNSClient) (identifier : AcmeIdentifier)
    (challenge : Challenge) :
    (Option (List ValidationRecord) × Option ProblemDetails) × List GoStr :=
  if identifier.idType ≠ IdentifierDNS then
    ((none, some (probsMalformed (gs "Identifier type for DNS was not itself DNS"))), [])
  else
    let digest := authorizedKeysDigest challenge.providedKeyAuthorization
    match va.lookupTXT (challengeSubdomain identifier) with
    | TXTResult.err e => ((none, some (probsDNS e)), [challengeSubdomain identifier])
    | TXTResult.ok txts authorities =>
      if txts.length = 0 then
        ((none, some (probsUnauthorized
            (gs "No TXT record found at " ++ challengeSubdomain identifier))),
         [challengeSubdomain identifier])
      else if txts.any (fun element => subtleConstantTimeCompare element digest == 1) then
        ((some [{ hostname := identifier.value, authorities := authorities }], none),
         [challengeSubdomain identifier])
      else
        let invalidRecord := txts.headD []
        let shownRecord :=
          if 100 < invalidRecord.length then invalidRecord.take 100 ++ gs "..."
          else invalidRecord
        let andMore :=
          if 1 < txts.length then gs " (and " ++ goItoa (txts.length - 1) ++ gs " more)"
          else []
        ((none, some (probsUnauthorized
            (gs "Incorrect TXT record " ++ goQuote (replaceInvalidUTF8 shownRecord) ++
             andMore ++ gs " found at " ++ challengeSubdomain identifier))),
         [challengeSubdomain identifier])

/-! ## The spec's alternative rendering pipeline, for comparison with the
source's. The spec's design note (§9) describes sanitization happening before
truncation, with truncation then acting on well-formed text, i.e. on
characters. -/

/-- Byte groups of the runes of a sanitized (well-formed) byte string: each
group is one encoded character. Bytes that start no valid sequence in the
remaining input form their own group (such bytes do not occur in sanitized
text). -/
def utf8Runes : List Nat → List (List Nat)
  | [] => []
  | [b0] => [[b0]]
  | [b0, b1] =>
    if b0 < 128 then [b0] :: utf8Runes [b1]
    else if twoOK b0 b1 then [[b0, b1]]
    else [b0] :: utf8Runes [b1]
  | [b0, b1, b2] =>
    if b0 < 128 then [b0] :: utf8Runes [b1, b2]
    else if twoOK b0 b1 then [b0, b1] :: utf8Runes [b2]
    else if threeOK b0 b1 b2 then [[b0, b1, b2]]
    else [b0] :: utf8Runes [b1, b2]
  | b0 :: b1 :: b2 :: b3 :: rest =>
    if b0 < 128 then [b0] :: utf8Runes (b1 :: b2 :: b3 :: rest)
    else if twoOK b0 b1 then [b0, b1] :: utf8Runes (b2 :: b3 :: rest)
    else if threeOK b0 b1 b2 then [b0, b1, b2] :: utf8Runes (b3 :: rest)
    else if fourOK b0 b1 b2 b3 then [b0, b1, b2, b3] :: utf8Runes rest
    else [b0] :: utf8Runes (b1 :: b2 :: b3 :: rest)

/-- The no-match record rendering as the source performs it (`va/dns.go`
lines 83-92): truncate the raw record at 100 bytes, append dots when
truncated, then sanitize. -/
def shownRecordOfCode (record : GoStr) : GoStr :=
  replaceInvalidUTF8 (if 100 < record.length then record.take 100 ++ gs "..." else record)

/-- The no-match record rendering as the spec's design note describes it:
sanitize first, then truncate the well-formed text at 100 characters,
appending dots when truncated. -/
def shownRecordOfSpec (record : GoStr) : GoStr :=
  let sanitized := utf8Runes (replaceInvalidUTF8 record)
  if 100 < sanitized.length then (sanitized.take 100).flatten ++ gs "..."
  else sanitized.flatten

/-! ## Concrete fixtures used by witnesses and counterexamples. -/

/-- A 101-byte TXT record: 99 ASCII bytes followed by a two-byte encoded
character, so the 100-byte truncation cuts the character in half. -/
def ceRecord : GoStr := List.replicate 99 97 ++ [195, 169]

/-- A client answering every TXT query with `ceRecord` and authority `ns1`,
and failing host lookups. -/
def ceClient : DNSClient :=
  ⟨fun _ => TXTResult.ok [ceRecord] [gs "ns1"], fun _ => HostResult.err (gs "e")⟩

/-- A client answering every TXT query with a record list containing the
expected proof for the key authorization `ka`, after a bogus record. -/
def okClient : DNSClient :=
  ⟨fun _ => TXTResult.ok [authorizedKeysDigest (gs "ka")] [gs "ns1"],
   fun _ => HostResult.err (gs "e")⟩

/-- A client whose TXT lookups fail and whose host lookups return two
addresses. -/
def errClient : DNSClient :=
  ⟨fun _ => TXTResult.err (gs "SERVFAIL"),
   fun _ => HostResult.ok [[1, 2, 3, 4], [5, 6, 7, 8]]⟩

/-- A client answering TXT queries with two short non-matching records and
host lookups with no addresses. -/
def nomatchClient : DNSClient :=
  ⟨fun _ => TXTResult.ok [gs "aaa", gs "bbb"] [gs "ns1"],
   fun _ => HostResult.ok []⟩

/-- A client answering TXT queries with zero records. -/
def emptyClient : DNSClient :=
  ⟨fun _ => TXTResult.ok [] [gs "ns1"], fun _ => HostResult.ok []⟩

/-- The DNS identifier `example.com`. -/
def exampleId : AcmeIdentifier := ⟨gs "dns", gs "example.com"⟩

/-- An identifier whose type is not DNS. -/
def ipId : AcmeIdentifier := ⟨gs "ip", gs "example.com"⟩

/-- The fixture challenge. -/
def kaCh : Challenge := ⟨gs "ka"⟩

/-! ## Lemmas about the base64 alphabet and encoding. -/

/-- Every alphabet byte is a byte and is not the padding character 61. -/
theorem b64Char_range (n : Nat) : b64Char n < 256 ∧ b64Char n ≠ 61 := by
  unfold b64Char
  split_ifs <;> omega

/-- Every byte of a base64url-no-padding encoding is a byte and is not the
padding character. -/
theorem mem_base64RawURLEncode (l : List Nat) :
    ∀ b ∈ base64RawURLEncode l, b < 256 ∧ b ≠ 61 := by
  induction l using base64RawURLEncode.induct with
  | case1 b0 b1 b2 rest ih =>
    intro b hb
    simp only [base64RawURLEncode, List.mem_cons] at hb
    rcases hb with rfl | rfl | rfl | rfl | hb
    · exact b64Char_range _
    · exact b64Char_range _
    · exact b64Char_range _
    · exact b64Char_range _
    · exact ih b hb
  | case2 b0 b1 =>
    intro b hb
    simp only [base64RawURLEncode, List.mem_cons, List.not_mem_nil, or_false] at hb
    rcases hb with rfl | rfl | rfl <;> exact b64Char_range _
  | case3 b0 =>
    intro b hb
    simp only [base64RawURLEncode, List.mem_cons, List.not_mem_nil, or_false] at hb
    rcases hb with rfl | rfl <;> exact b64Char_range _
  | case4 =>
    intro b hb
    simp [base64RawURLEncode] at hb

/-- Length of a base64url-no-padding encoding in terms of the input length. -/
theorem base64RawURLEncode_length (l : List Nat) :
    (base64RawURLEncode l).length =
      4 * (l.length / 3) + (if l.length % 3 = 0 then 0 else l.length % 3 + 1) := by
  induction l using base64RawURLEncode.induct with
  | case1 b0 b1 b2 rest ih =>
    simp only [base64RawURLEncode, List.length_cons, ih]
    split_ifs <;> omega
  | case2 b0 b1 => simp [base64RawURLEncode]
  | case3 b0 => simp [base64RawURLEncode]
  | case4 => simp [base64RawURLEncode]

/-! ## Lemmas about SHA-256 output shape. -/

/-- SHA-256 always emits exactly 32 bytes. -/
theorem sha256_length (msg : List Nat) : (sha256 msg).length = 32 := by
  unfold sha256
  simp [be32]

/-- Every element of a SHA-256 digest is a byte. -/
theorem mem_sha256_lt (msg : List Nat) : ∀ b ∈ sha256 msg, b < 256 := by
  unfold sha256
  intro b hb
  simp only [be32, w8, List.mem_append, List.mem_cons, List.not_mem_nil, or_false] at hb
  rcases hb with ((((((h | h) | h) | h) | h) | h) | h) | h <;>
    (rcases h with rfl | rfl | rfl | rfl <;> omega)

/-- The expected proof is 43 bytes long. -/
theorem authorizedKeysDigest_length (ka : GoStr) :
    (authorizedKeysDigest ka).length = 43 := by
  unfold authorizedKeysDigest
  rw [base64RawURLEncode_length, sha256_length]
  norm_num

/-- The expected proof never contains the base64 padding character and
consists of bytes. -/
theorem mem_authorizedKeysDigest (ka : GoStr) :
    ∀ b ∈ authorizedKeysDigest ka, b < 256 ∧ b ≠ 61 :=
  fun b hb => mem_base64RawURLEncode _ b hb

/-! ## Lemmas about the constant-time comparison. -/

/-- Disjunction of two naturals is zero exactly when both are. -/
theorem or_eq_zero_iff_both (x y : Nat) : x ||| y = 0 ↔ x = 0 ∧ y = 0 := by
  constructor
  · intro h
    constructor <;>
    · apply Nat.zero_of_testBit_eq_false
      intro i
      have hb : (x ||| y).testBit i = false := by rw [h]; simp
      rw [Nat.testBit_lor] at hb
      simp only [Bool.or_eq_false_iff] at hb
      first
      | exact hb.1
      | exact hb.2
  · rintro ⟨rfl, rfl⟩
    rfl

/-- The comparison loop runs once per byte position: its iteration count is
determined by the operand lengths alone. -/
theorem ctLoop_snd (x : List Nat) : ∀ (y : List Nat) (v : Nat),
    (ctLoop x y v).2 = min x.length y.length := by
  induction x with
  | nil => intro y v; cases y <;> simp [ctLoop]
  | cons a xs ih =>
    intro y v
    cases y with
    | nil => simp [ctLoop]
    | cons b ys =>
      simp only [ctLoop, ih, List.length_cons]
      omega

/-- The loop accumulator ends at zero exactly when it started there and the
operands agree. -/
theorem ctLoop_fst_zero (x : List Nat) : ∀ (y : List Nat) (v : Nat),
    x.length = y.length → ((ctLoop x y v).1 = 0 ↔ v = 0 ∧ x = y) := by
  induction x with
  | nil =>
    intro y v h
    cases y with
    | nil => simp [ctLoop]
    | cons b ys => simp at h
  | cons a xs ih =>
    intro y v h
    cases y with
    | nil => simp at h
    | cons b ys =>
      simp only [List.length_cons] at h
      simp only [ctLoop]
      rw [ih ys (v ||| (a ^^^ b)) (by omega)]
      rw [or_eq_zero_iff_both, Nat.xor_eq_zero]
      constructor
      · rintro ⟨⟨hv, hab⟩, hxs⟩
        exact ⟨hv, by simp [hab, hxs]⟩
      · rintro ⟨hv, hc⟩
        injection hc with h1 h2
        exact ⟨⟨hv, h1⟩, h2⟩

/-- The loop accumulator stays below 256 on byte operands. -/
theorem ctLoop_fst_lt (x : List Nat) : ∀ (y : List Nat) (v : Nat),
    (∀ b ∈ x, b < 256) → (∀ b ∈ y, b < 256) → v < 256 →
    (ctLoop x y v).1 < 256 := by
  induction x with
  | nil => intro y v _ _ hv; cases y <;> simpa [ctLoop]
  | cons a xs ih =>
    intro y v hx hy hv
    cases y with
    | nil => simpa [ctLoop]
    | cons b ys =>
      simp only [ctLoop]
      apply ih ys (v ||| (a ^^^ b))
      · intro c hc; exact hx c (List.mem_cons_of_mem _ hc)
      · intro c hc; exact hy c (List.mem_cons_of_mem _ hc)
      · exact Nat.or_lt_two_pow (n := 8) hv
          (Nat.xor_lt_two_pow (n := 8) (hx a (List.mem_cons_self _ _))
            (hy b (List.mem_cons_self _ _)))

/-- `ConstantTimeByteEq v 0` answers 1 exactly when `v = 0`, for byte-sized
accumulators. -/
theorem constantTimeByteEq_zero (v : Nat) (h : v < 256) :
    (constantTimeByteEq v 0 = 1 ↔ v = 0) := by
  unfold constantTimeByteEq w32
  rw [Nat.xor_zero, Nat.shiftRight_eq_div_pow]
  norm_num
  omega

/-- A byte string compares equal to itself. -/
theorem subtleConstantTimeCompare_self (x : List Nat) :
    subtleConstantTimeCompare x x = 1 := by
  unfold subtleConstantTimeCompare
  simp only [ne_eq, not_true_eq_false, if_false, ite_false]
  have h0 : (ctLoop x x 0).1 = 0 := (ctLoop_fst_zero x x 0 rfl).mpr ⟨rfl, rfl⟩
  simp [h0]
  rfl

/-- On byte strings, the constant-time comparison answers 1 exactly on
equality. -/
theorem subtleConstantTimeCompare_eq_one (x y : List Nat)
    (hx : ∀ b ∈ x, b < 256) (hy : ∀ b ∈ y, b < 256) :
    (subtleConstantTimeCompare x y = 1 ↔ x = y) := by
  unfold subtleConstantTimeCompare
  by_cases h : x.length = y.length
  · simp only [h, ne_eq, not_true_eq_false, if_false, ite_false]
    rw [constantTimeByteEq_zero _ (ctLoop_fst_lt x y 0 hx hy (by omega)),
        ctLoop_fst_zero x y 0 h]
    simp
  · simp only [ne_eq, h, not_false_eq_true, if_true, ite_true]
    constructor
    · omega
    · intro hxy
      exact absurd (by rw [hxy]) h


/-! ## Lemmas about UTF-8 validity of sanitized output. -/

/-- Validity is unaffected by a leading ASCII byte. -/
theorem utf8Valid_cons_ascii (b0 : Nat) (h : b0 < 128) :
    ∀ l, utf8Valid (b0 :: l) = utf8Valid l
  | [] => by simp [utf8Valid, h]
  | [b1] => by simp [utf8Valid, h]
  | [b1, b2] => by simp [utf8Valid, h]
  | b1 :: b2 :: b3 :: t => by simp [utf8Valid, h]

/-- Validity is unaffected by a leading valid two-byte sequence. -/
theorem utf8Valid_cons2 (b0 b1 : Nat) (h : twoOK b0 b1 = true) :
    ∀ l, utf8Valid (b0 :: b1 :: l) = utf8Valid l := by
  have harith := h
  simp only [twoOK, Bool.and_eq_true, decide_eq_true_eq] at harith
  have hn : ¬ b0 < 128 := by omega
  intro l
  match l with
  | [] => simp [utf8Valid, hn, h]
  | [c] => simp [utf8Valid, hn, h]
  | c :: d :: t => simp [utf8Valid, hn, h]

/-- Validity is unaffected by a leading valid three-byte sequence. -/
theorem utf8Valid_cons3 (b0 b1 b2 : Nat) (h : threeOK b0 b1 b2 = true) :
    ∀ l, utf8Valid (b0 :: b1 :: b2 :: l) = utf8Valid l := by
  have harith := h
  simp only [threeOK, Bool.and_eq_true, decide_eq_true_eq] at harith
  have hn : ¬ b0 < 128 := by omega
  have h2 : twoOK b0 b1 = false := by
    cases hx : twoOK b0 b1
    · rfl
    · simp only [twoOK, Bool.and_eq_true, decide_eq_true_eq] at hx
      omega
  intro l
  match l with
  | [] => simp [utf8Valid, hn, h2, h]
  | [c] => simp [utf8Valid, hn, h2, h]
  | c :: d :: t => simp [utf8Valid, hn, h2, h]

/-- Validity is unaffected by a leading valid four-byte sequence. -/
theorem utf8Valid_cons4 (b0 b1 b2 b3 : Nat) (h : fourOK b0 b1 b2 b3 = true) :
    ∀ l, utf8Valid (b0 :: b1 :: b2 :: b3 :: l) = utf8Valid l := by
  have harith := h
  simp only [fourOK, Bool.and_eq_true, decide_eq_true_eq] at harith
  have hn : ¬ b0 < 128 := by omega
  have h2 : twoOK b0 b1 = false := by
    cases hx : twoOK b0 b1
    · rfl
    · simp only [twoOK, Bool.and_eq_true, decide_eq_true_eq] at hx
      omega
  have h3 : threeOK b0 b1 b2 = false := by
    cases hx : threeOK b0 b1 b2
    · rfl
    · simp only [threeOK, Bool.and_eq_true, decide_eq_true_eq] at hx
      omega
  intro l
  simp [utf8Valid, hn, h2, h3, h]

/-- Validity is unaffected by a leading replacement character. -/
theorem utf8Valid_rc_append (l : List Nat) :
    utf8Valid (rcBytes ++ l) = utf8Valid l := by
  rw [show rcBytes ++ l = 239 :: 191 :: 189 :: l from rfl]
  exact utf8Valid_cons3 239 191 189 (by decide) l

/-- The sanitizer always emits well-formed UTF-8: this is what makes
"sanitize last" sufficient for a well-formed rendering. -/
theorem utf8Valid_replaceInvalidUTF8 (l : List Nat) :
    utf8Valid (replaceInvalidUTF8 l) = true := by
  induction l using replaceInvalidUTF8.induct with
  | case1 => simp [replaceInvalidUTF8, utf8Valid]
  | case2 b0 h => simp [replaceInvalidUTF8, utf8Valid, h]
  | case3 b0 h =>
    rw [replaceInvalidUTF8, if_neg h]
    decide
  | case4 b0 b1 h ih =>
    rw [replaceInvalidUTF8, if_pos h, utf8Valid_cons_ascii b0 h]
    exact ih
  | case5 b0 b1 hn h =>
    rw [replaceInvalidUTF8, if_neg hn, if_pos h]
    rw [show ([b0, b1] : List Nat) = b0 :: b1 :: [] from rfl, utf8Valid_cons2 b0 b1 h]
    decide
  | case6 b0 b1 hn h2 ih =>
    rw [replaceInvalidUTF8, if_neg hn, if_neg h2, utf8Valid_rc_append]
    exact ih
  | case7 b0 b1 b2 h ih =>
    rw [replaceInvalidUTF8, if_pos h, utf8Valid_cons_ascii b0 h]
    exact ih
  | case8 b0 b1 b2 hn h ih =>
    rw [replaceInvalidUTF8, if_neg hn, if_pos h, utf8Valid_cons2 b0 b1 h]
    exact ih
  | case9 b0 b1 b2 hn h2 h3 =>
    rw [replaceInvalidUTF8, if_neg hn, if_neg h2, if_pos h3]
    rw [show ([b0, b1, b2] : List Nat) = b0 :: b1 :: b2 :: [] from rfl,
        utf8Valid_cons3 b0 b1 b2 h3]
    decide
  | case10 b0 b1 b2 hn h2 h3 ih =>
    rw [replaceInvalidUTF8, if_neg hn, if_neg h2, if_neg h3, utf8Valid_rc_append]
    exact ih
  | case11 b0 b1 b2 b3 rest h ih =>
    rw [replaceInvalidUTF8, if_pos h, utf8Valid_cons_ascii b0 h]
    exact ih
  | case12 b0 b1 b2 b3 rest hn h ih =>
    rw [replaceInvalidUTF8, if_neg hn, if_pos h, utf8Valid_cons2 b0 b1 h]
    exact ih
  | case13 b0 b1 b2 b3 rest hn h2 h3 ih =>
    rw [replaceInvalidUTF8, if_neg hn, if_neg h2, if_pos h3, utf8Valid_cons3 b0 b1 b2 h3]
    exact ih
  | case14 b0 b1 b2 b3 rest hn h2 h3 h4 ih =>
    rw [replaceInvalidUTF8, if_neg hn, if_neg h2, if_neg h3, if_pos h4,
        utf8Valid_cons4 b0 b1 b2 b3 h4]
    exact ih
  | case15 b0 b1 b2 b3 rest hn h2 h3 h4 ih =>
    rw [replaceInvalidUTF8, if_neg hn, if_neg h2, if_neg h3, if_neg h4, utf8Valid_rc_append]
    exact ih

/-! ## Branch behavior of `validateDNS01`. -/

/-- A non-DNS identifier short-circuits to Malformed with no query. -/
theorem validateDNS01_non_dns_aux (va : DNSClient) (identifier : AcmeIdentifier)
    (challenge : Challenge) (h : identifier.idType ≠ IdentifierDNS) :
    validateDNS01 va identifier challenge =
      ((none, some (probsMalformed (gs "Identifier type for DNS was not itself DNS"))), []) := by
  unfold validateDNS01
  simp [h]

/-- A failing TXT lookup yields a DNS problem carrying the error text. -/
theorem validateDNS01_err_aux (va : DNSClient) (identifier : AcmeIdentifier)
    (challenge : Challenge) (e : GoStr)
    (hty : identifier.idType = IdentifierDNS)
    (hlk : va.lookupTXT (challengeSubdomain identifier) = TXTResult.err e) :
    validateDNS01 va identifier challenge =
      ((none, some (probsDNS e)), [challengeSubdomain identifier]) := by
  unfold validateDNS01
  simp [hty, hlk]

/-- A lookup returning zero TXT values yields the Unauthorized
"No TXT record found" problem. -/
theorem validateDNS01_empty_aux (va : DNSClient) (identifier : AcmeIdentifier)
    (challenge : Challenge) (authorities : List GoStr)
    (hty : identifier.idType = IdentifierDNS)
    (hlk : va.lookupTXT (challengeSubdomain identifier) =
           TXTResult.ok [] authorities) :
    validateDNS01 va identifier challenge =
      ((none, some (probsUnauthorized
          (gs "No TXT record found at " ++ challengeSubdomain identifier))),
       [challengeSubdomain identifier]) := by
  unfold validateDNS01
  simp [hty, hlk]

/-- When some value passes the comparison test, the validator returns the
single success record. -/
theorem validateDNS01_anytrue_aux (va : DNSClient) (identifier : AcmeIdentifier)
    (challenge : Challenge) (t0 : GoStr) (ts authorities : List GoStr)
    (hty : identifier.idType = IdentifierDNS)
    (hlk : va.lookupTXT (challengeSubdomain identifier) =
           TXTResult.ok (t0 :: ts) authorities)
    (hany : (t0 :: ts).any
      (fun element => subtleConstantTimeCompare element
        (authorizedKeysDigest challenge.providedKeyAuthorization) == 1) = true) :
    validateDNS01 va identifier challenge =
      ((some [{ hostname := identifier.value, authorities := authorities }], none),
       [challengeSubdomain identifier]) := by
  unfold validateDNS01
  simp only [hty, ne_eq, not_true_eq_false, if_false, ite_false, hlk]
  simp [hany]

/-- When no value passes the comparison test, the validator returns the
Unauthorized problem built from the first record. -/
theorem validateDNS01_anyfalse_aux (va : DNSClient) (identifier : AcmeIdentifier)
    (challenge : Challenge) (t0 : GoStr) (ts authorities : List GoStr)
    (hty : identifier.idType = IdentifierDNS)
    (hlk : va.lookupTXT (challengeSubdomain identifier) =
           TXTResult.ok (t0 :: ts) authorities)
    (hany : (t0 :: ts).any
      (fun element => subtleConstantTimeCompare element
        (authorizedKeysDigest challenge.providedKeyAuthorization) == 1) = false) :
    validateDNS01 va identifier challenge =
      ((none, some (probsUnauthorized
          (gs "Incorrect TXT record " ++
           goQuote (replaceInvalidUTF8
             (if 100 < t0.length then t0.take 100 ++ gs "..." else t0)) ++
           (if 1 < (t0 :: ts).length then
              gs " (and " ++ goItoa ((t0 :: ts).length - 1) ++ gs " more)"
            else []) ++
           gs " found at " ++ challengeSubdomain identifier))),
       [challengeSubdomain identifier]) := by
  unfold validateDNS01
  simp only [hty, ne_eq, not_true_eq_false, if_false, ite_false, hlk]
  simp [hany]

/-- A lookup whose values contain the expected proof yields the single
success record. -/
theorem validateDNS01_match_aux (va : DNSClient) (identifier : AcmeIdentifier)
    (challenge : Challenge) (txts authorities : List GoStr)
    (hty : identifier.idType = IdentifierDNS)
    (hlk : va.lookupTXT (challengeSubdomain identifier) =
           TXTResult.ok txts authorities)
    (hmem : authorizedKeysDigest challenge.providedKeyAuthorization ∈ txts) :
    validateDNS01 va identifier challenge =
      ((some [{ hostname := identifier.value, authorities := authorities }], none),
       [challengeSubdomain identifier]) := by
  have hne : txts ≠ [] := by
    intro hx
    rw [hx] at hmem
    exact List.not_mem_nil _ hmem
  obtain ⟨t0, ts, rfl⟩ := List.exists_cons_of_ne_nil hne
  apply validateDNS01_anytrue_aux va identifier challenge t0 ts authorities hty hlk
  refine List.any_eq_true.mpr ⟨_, hmem, ?_⟩
  simp [subtleConstantTimeCompare_self]

/-- A lookup whose values all fail the constant-time test yields the
Unauthorized "Incorrect TXT record" problem with the truncated, sanitized
first record and a count suffix. -/
theorem validateDNS01_nomatch_aux (va : DNSClient) (identifier : AcmeIdentifier)
    (challenge : Challenge) (t0 : GoStr) (ts authorities : List GoStr)
    (hty : identifier.idType = IdentifierDNS)
    (hlk : va.lookupTXT (challengeSubdomain identifier) =
           TXTResult.ok (t0 :: ts) authorities)
    (hany : ∀ t ∈ t0 :: ts,
      subtleConstantTimeCompare t (authorizedKeysDigest challenge.providedKeyAuthorization) ≠ 1) :
    validateDNS01 va identifier challenge =
      ((none, some (probsUnauthorized
          (gs "Incorrect TXT record " ++
           goQuote (replaceInvalidUTF8
             (if 100 < t0.length then t0.take 100 ++ gs "..." else t0)) ++
           (if 1 < (t0 :: ts).length then
              gs " (and " ++ goItoa ((t0 :: ts).length - 1) ++ gs " more)"
            else []) ++
           gs " found at " ++ challengeSubdomain identifier))),
       [challengeSubdomain identifier]) := by
  apply validateDNS01_anyfalse_aux va identifier challenge t0 ts authorities hty hlk
  rw [List.any_eq_false]
  intro t ht
  simpa using hany t ht

/-- Every success of `validateDNS01` carries exactly one record. -/
theorem validateDNS01_success_singleton (va : DNSClient) (identifier : AcmeIdentifier)
    (challenge : Challenge) (recs : List ValidationRecord)
    (h : (validateDNS01 va identifier challenge).1.1 = some recs) :
    recs.length = 1 := by
  by_cases hty : identifier.idType = IdentifierDNS
  · cases hlk : va.lookupTXT (challengeSubdomain identifier) with
    | err e =>
      rw [validateDNS01_err_aux va identifier challenge e hty hlk] at h
      simp at h
    | ok txts authorities =>
      cases txts with
      | nil =>
        rw [validateDNS01_empty_aux va identifier challenge authorities hty hlk] at h
        simp at h
      | cons t0 ts =>
        cases hany : (t0 :: ts).any
            (fun element => subtleConstantTimeCompare element
              (authorizedKeysDigest challenge.providedKeyAuthorization) == 1) with
        | true =>
          rw [validateDNS01_anytrue_aux va identifier challenge t0 ts authorities
                hty hlk hany] at h
          simp only [Option.some_inj] at h
          rw [← h]
          rfl
        | false =>
          rw [validateDNS01_anyfalse_aux va identifier challenge t0 ts authorities
                hty hlk hany] at h
          simp at h
  · rw [validateDNS01_non_dns_aux va identifier challenge hty] at h
    simp at h

/-- The empty-lookup detail fuses into the literal the spec gives. -/
theorem noTxtDetail_eq (v : GoStr) :
    gs "No TXT record found at " ++ (challengeLabel ++ gs "." ++ v) =
    gs "No TXT record found at _acme-challenge." ++ v := by
  rw [← List.append_assoc]
  congr 1

/-- The fixture record compares unequal to any expected proof: its length is
101 while proofs are 43 bytes. -/
theorem ceRecord_no_compare (ch : Challenge) :
    ∀ t ∈ [ceRecord],
      subtleConstantTimeCompare t (authorizedKeysDigest ch.providedKeyAuthorization) ≠ 1 := by
  intro t ht hc
  rw [List.mem_singleton] at ht
  subst ht
  have hne : ceRecord.length ≠
      (authorizedKeysDigest ch.providedKeyAuthorization).length := by
    rw [authorizedKeysDigest_length]
    decide
  unfold subtleConstantTimeCompare at hc
  rw [if_pos hne] at hc
  exact absurd hc (by decide)

/-- The filter characterization of the address classifier. -/
theorem availableAddresses_eq_filter (l : List GoStr) :
    availableAddresses l =
      (l.filter (fun a => (goTo4 a).isSome),
       l.filter (fun a => !(goTo4 a).isSome)) := by
  induction l with
  | nil => rfl
  | cons a t ih =>
    simp only [availableAddresses, ih]
    by_cases h : (goTo4 a).isSome
    · simp only [List.filter_cons, h, if_true, ite_true, Bool.not_true, Bool.false_eq_true,
        if_false, ite_false]
      try simp [Option.isSome_iff_ne_none.mp h]
    · simp only [List.filter_cons, h, Bool.false_eq_true, if_false, ite_false, Bool.not_eq_true]
      try simp [h, Option.not_isSome_iff_eq_none.mp h]

/-! ## Claim theorems. -/

/-- C1: for a DNS-type identifier, when the TXT lookup succeeds and some
returned value equals the expected proof, `validateDNS01` succeeds, returning
exactly one ValidationRecord with hostname `identifier.value` and the
authorities returned by the query; moreover every success of `validateDNS01`
carries exactly one record. -/
theorem validateDNS01_first_match_success (va : DNSClient) (identifier : AcmeIdentifier)
    (challenge : Challenge) (txts authorities : List GoStr)
    (hty : identifier.idType = IdentifierDNS)
    (hlk : va.lookupTXT (challengeSubdomain identifier) = TXTResult.ok txts authorities)
    (hmem : authorizedKeysDigest challenge.providedKeyAuthorization ∈ txts) :
    validateDNS01 va identifier challenge =
      ((some [{ hostname := identifier.value, authorities := authorities }], none),
       [challengeSubdomain identifier]) ∧
    (∀ (va2 : DNSClient) (id2 : AcmeIdentifier) (ch2 : Challenge)
       (recs : List ValidationRecord),
      (validateDNS01 va2 id2 ch2).1.1 = some recs → recs.length = 1) :=
  ⟨validateDNS01_match_aux va identifier challenge txts authorities hty hlk hmem,
   fun va2 id2 ch2 recs h => validateDNS01_success_singleton va2 id2 ch2 recs h⟩

/-- Witness for C1 at the fixture client whose lookup returns the expected
proof for key authorization `ka`. -/
theorem validateDNS01_first_match_success_witness :
    validateDNS01 okClient exampleId kaCh =
      ((some [{ hostname := gs "example.com", authorities := [gs "ns1"] }], none),
       [challengeSubdomain exampleId]) ∧
    ((validateDNS01 okClient exampleId kaCh).1.1 =
        some [{ hostname := gs "example.com", authorities := [gs "ns1"] }] →
      ([{ hostname := gs "example.com", authorities := [gs "ns1"] }] :
        List ValidationRecord).length = 1) := by
  have h := validateDNS01_first_match_success okClient exampleId kaCh
    [authorizedKeysDigest (gs "ka")] [gs "ns1"] rfl rfl
    (List.mem_singleton.mpr rfl)
  exact ⟨h.1, fun hx => h.2 okClient exampleId kaCh _ hx⟩

/-- C2: for a DNS-type identifier, a failing lookup maps to a DNS problem
carrying the error text, a lookup with zero TXT values maps to an
Unauthorized problem with detail exactly
"No TXT record found at _acme-challenge.<identifier.value>", and those two
problem kinds are distinct. -/
theorem validateDNS01_lookup_failure_kinds (va : DNSClient) (identifier : AcmeIdentifier)
    (challenge : Challenge)
    (hty : identifier.idType = IdentifierDNS) :
    (∀ e, va.lookupTXT (challengeSubdomain identifier) = TXTResult.err e →
      validateDNS01 va identifier challenge =
        ((none, some ⟨ProbKind.dns, e⟩), [challengeSubdomain identifier])) ∧
    (∀ authorities,
      va.lookupTXT (challengeSubdomain identifier) = TXTResult.ok [] authorities →
      validateDNS01 va identifier challenge =
        ((none, some ⟨ProbKind.unauthorized,
            gs "No TXT record found at _acme-challenge." ++ identifier.value⟩),
         [challengeSubdomain identifier])) ∧
    ProbKind.dns ≠ ProbKind.unauthorized := by
  refine ⟨?_, ?_, by decide⟩
  · intro e hlk
    exact validateDNS01_err_aux va identifier challenge e hty hlk
  · intro authorities hlk
    have h := validateDNS01_empty_aux va identifier challenge authorities hty hlk
    rw [h]
    unfold challengeSubdomain
    rw [noTxtDetail_eq identifier.value]
    rfl

/-- Witness for C2: the error branch at a client whose lookup fails with
SERVFAIL, and the empty branch at a client returning zero records. -/
theorem validateDNS01_lookup_failure_kinds_witness :
    validateDNS01 errClient exampleId kaCh =
      ((none, some ⟨ProbKind.dns, gs "SERVFAIL"⟩), [challengeSubdomain exampleId]) ∧
    validateDNS01 emptyClient exampleId kaCh =
      ((none, some ⟨ProbKind.unauthorized,
          gs "No TXT record found at _acme-challenge." ++ gs "example.com"⟩),
       [challengeSubdomain exampleId]) :=
  ⟨(validateDNS01_lookup_failure_kinds errClient exampleId kaCh rfl).1
      (gs "SERVFAIL") rfl,
   (validateDNS01_lookup_failure_kinds emptyClient exampleId kaCh rfl).2.1
      [gs "ns1"] rfl⟩

/-- C3: for a DNS-type identifier whose lookup returns one or more values,
none equal to the expected proof, `validateDNS01` fails Unauthorized with a
detail built from the first value: truncated at 100 characters with dots
appended when truncation occurred, then sanitized, and followed by an
"(and N more)" suffix with N = total - 1 when more than one value was
returned. -/
theorem validateDNS01_incorrect_record_detail (va : DNSClient)
    (identifier : AcmeIdentifier) (challenge : Challenge)
    (t0 : GoStr) (ts authorities : List GoStr)
    (hty : identifier.idType = IdentifierDNS)
    (hlk : va.lookupTXT (challengeSubdomain identifier) =
           TXTResult.ok (t0 :: ts) authorities)
    (hbytes : ∀ t ∈ t0 :: ts, ∀ b ∈ t, b < 256)
    (hnom : ∀ t ∈ t0 :: ts, t ≠ authorizedKeysDigest challenge.providedKeyAuthorization) :
    validateDNS01 va identifier challenge =
      ((none, some (probsUnauthorized
          (gs "Incorrect TXT record " ++
           goQuote (replaceInvalidUTF8
             (if 100 < t0.length then t0.take 100 ++ gs "..." else t0)) ++
           (if 1 < (t0 :: ts).length then
              gs " (and " ++ goItoa ((t0 :: ts).length - 1) ++ gs " more)"
            else []) ++
           gs " found at " ++ challengeSubdomain identifier))),
       [challengeSubdomain identifier]) := by
  apply validateDNS01_nomatch_aux va identifier challenge t0 ts authorities hty hlk
  intro t ht hc
  have heq := (subtleConstantTimeCompare_eq_one t
      (authorizedKeysDigest challenge.providedKeyAuthorization)
      (hbytes t ht)
      (fun b hb => (mem_authorizedKeysDigest _ b hb).1)).mp hc
  exact hnom t ht heq

/-- Witness for C3 at a client returning two short non-matching records. -/
theorem validateDNS01_incorrect_record_detail_witness :
    validateDNS01 nomatchClient exampleId kaCh =
      ((none, some (probsUnauthorized
          (gs "Incorrect TXT record " ++
           goQuote (replaceInvalidUTF8
             (if 100 < (gs "aaa").length then (gs "aaa").take 100 ++ gs "..." else gs "aaa")) ++
           (if 1 < (gs "aaa" :: [gs "bbb"]).length then
              gs " (and " ++ goItoa ((gs "aaa" :: [gs "bbb"]).length - 1) ++ gs " more)"
            else []) ++
           gs " found at " ++ challengeSubdomain exampleId))),
       [challengeSubdomain exampleId]) := by
  apply validateDNS01_incorrect_record_detail nomatchClient exampleId kaCh
    (gs "aaa") [gs "bbb"] [gs "ns1"] rfl rfl (by decide)
  intro t ht h
  have h43 := authorizedKeysDigest_length kaCh.providedKeyAuthorization
  rw [← h] at h43
  fin_cases ht <;> simp [gs] at h43

/-- C4 counterexample: on a 101-byte record ending in a two-byte character,
the detail the validator actually produces renders the record by truncating
first and sanitizing afterwards, and that rendering differs from the
sanitize-first pipeline the claim describes. -/
theorem validateDNS01_sanitize_order_counterexample :
    (validateDNS01 ceClient exampleId kaCh).1.2 =
      some (probsUnauthorized
        (gs "Incorrect TXT record " ++ goQuote (shownRecordOfCode ceRecord) ++
         gs " found at " ++ challengeSubdomain exampleId)) ∧
    shownRecordOfCode ceRecord ≠ shownRecordOfSpec ceRecord := by
  constructor
  · rw [validateDNS01_nomatch_aux ceClient exampleId kaCh ceRecord [] [gs "ns1"]
        rfl rfl (ceRecord_no_compare kaCh)]
    simp [shownRecordOfCode, ceRecord]
  · decide

/-- C4 (amended): in the no-match detail, sanitization is applied to the
already-truncated record, not before truncation; the truncation is on raw
bytes and may split a multi-byte sequence, but because sanitization runs
last the rendered record is nevertheless well-formed UTF-8. -/
theorem validateDNS01_sanitize_after_truncation (va : DNSClient)
    (identifier : AcmeIdentifier) (challenge : Challenge)
    (t0 : GoStr) (ts authorities : List GoStr)
    (hty : identifier.idType = IdentifierDNS)
    (hlk : va.lookupTXT (challengeSubdomain identifier) =
           TXTResult.ok (t0 :: ts) authorities)
    (hany : ∀ t ∈ t0 :: ts,
      subtleConstantTimeCompare t
        (authorizedKeysDigest challenge.providedKeyAuthorization) ≠ 1) :
    (validateDNS01 va identifier challenge).1.2 =
      some (probsUnauthorized
        (gs "Incorrect TXT record " ++ goQuote (shownRecordOfCode t0) ++
         (if 1 < (t0 :: ts).length then
            gs " (and " ++ goItoa ((t0 :: ts).length - 1) ++ gs " more)"
          else []) ++
         gs " found at " ++ challengeSubdomain identifier)) ∧
    utf8Valid (shownRecordOfCode t0) = true := by
  constructor
  · rw [validateDNS01_nomatch_aux va identifier challenge t0 ts authorities hty hlk hany]
    exact rfl
  · exact utf8Valid_replaceInvalidUTF8 _

/-- Witness for the amended C4 at the fixture record. -/
theorem validateDNS01_sanitize_after_truncation_witness :
    (validateDNS01 ceClient exampleId kaCh).1.2 =
      some (probsUnauthorized
        (gs "Incorrect TXT record " ++ goQuote (shownRecordOfCode ceRecord) ++
         (if 1 < ([ceRecord] : List GoStr).length then
            gs " (and " ++ goItoa (([ceRecord] : List GoStr).length - 1) ++ gs " more)"
          else []) ++
         gs " found at " ++ challengeSubdomain exampleId)) ∧
    utf8Valid (shownRecordOfCode ceRecord) = true :=
  validateDNS01_sanitize_after_truncation ceClient exampleId kaCh ceRecord [] [gs "ns1"]
    rfl rfl (ceRecord_no_compare kaCh)

/-- C5 counterexample: the Malformed detail the validator actually produces
for a non-DNS identifier is "Identifier type for DNS was not itself DNS",
not the string the claim gives. -/
theorem validateDNS01_malformed_detail_counterexample :
    (validateDNS01 ceClient ipId kaCh).1.2 =
      some ⟨ProbKind.malformed, gs "Identifier type for DNS was not itself DNS"⟩ ∧
    gs "Identifier type for DNS was not itself DNS" ≠
      gs "identifier type for DNS challenge was not DNS" := by
  constructor
  · rw [validateDNS01_non_dns_aux ceClient ipId kaCh (by decide)]
    exact rfl
  · decide

/-- C5 (amended): for every identifier whose type is not DNS,
`validateDNS01` fails immediately with a Malformed problem whose detail is
"Identifier type for DNS was not itself DNS", and issues no DNS query (the
query trace is empty). -/
theorem validateDNS01_non_dns_malformed (va : DNSClient) (identifier : AcmeIdentifier)
    (challenge : Challenge) (h : identifier.idType ≠ IdentifierDNS) :
    validateDNS01 va identifier challenge =
      ((none, some ⟨ProbKind.malformed,
          gs "Identifier type for DNS was not itself DNS"⟩), []) :=
  validateDNS01_non_dns_aux va identifier challenge h

/-- Witness for the amended C5 at a non-DNS identifier. -/
theorem validateDNS01_non_dns_malformed_witness :
    validateDNS01 ceClient ipId kaCh =
      ((none, some ⟨ProbKind.malformed,
          gs "Identifier type for DNS was not itself DNS"⟩), []) :=
  validateDNS01_non_dns_malformed ceClient ipId kaCh (by decide)

/-- C6: the expected proof is exactly base64url-no-padding of the SHA-256
digest of the key authorization bytes; the computation is deterministic,
its output never contains the padding character, and its length is fixed at
43 bytes. -/
theorem authorizedKeysDigest_contract (ka : GoStr) :
    authorizedKeysDigest ka = base64RawURLEncode (sha256 ka) ∧
    (∀ ka2, ka = ka2 → authorizedKeysDigest ka = authorizedKeysDigest ka2) ∧
    (61 ∉ authorizedKeysDigest ka) ∧
    (authorizedKeysDigest ka).length = 43 := by
  refine ⟨rfl, fun ka2 h => by rw [h], ?_, authorizedKeysDigest_length ka⟩
  intro hmem
  exact (mem_authorizedKeysDigest ka 61 hmem).2 rfl

/-- Witness for C6 at the key authorization `abc`. -/
theorem authorizedKeysDigest_contract_witness :
    authorizedKeysDigest (gs "abc") = base64RawURLEncode (sha256 (gs "abc")) ∧
    authorizedKeysDigest (gs "abc") = authorizedKeysDigest (gs "abc") ∧
    (61 ∉ authorizedKeysDigest (gs "abc")) ∧
    (authorizedKeysDigest (gs "abc")).length = 43 := by
  have h := authorizedKeysDigest_contract (gs "abc")
  exact ⟨h.1, h.2.1 (gs "abc") rfl, h.2.2.1, h.2.2.2⟩

/-- C7: resolution failure maps to a DNS problem with the error text, an
empty result to an UnknownHost problem naming the host, and a non-empty
result passes through in order. -/
theorem getAddrs_outcomes (va : DNSClient) (hostname : GoStr) :
    match va.lookupHost hostname with
    | HostResult.err e => getAddrs va hostname = (none, some ⟨ProbKind.dns, e⟩)
    | HostResult.ok [] => getAddrs va hostname =
        (none, some ⟨ProbKind.unknownHost,
           gs "No valid IP addresses found for " ++ hostname⟩)
    | HostResult.ok (a :: rest) => getAddrs va hostname = (some (a :: rest), none) := by
  cases h : va.lookupHost hostname with
  | err e => simp [getAddrs, h, probsDNS]
  | ok addrs =>
    cases addrs with
    | nil => simp [getAddrs, h, probsUnknownHost]
    | cons a rest => simp [getAddrs, h]

/-- C8: the classifier equals the two filters by the `To4` test, so every
address lands in exactly one output in input order, and counts are
preserved: nothing is dropped or duplicated. -/
theorem availableAddresses_partition (allAddrs : List GoStr) :
    availableAddresses allAddrs =
      (allAddrs.filter (fun a => (goTo4 a).isSome),
       allAddrs.filter (fun a => !(goTo4 a).isSome)) ∧
    List.Perm ((availableAddresses allAddrs).1 ++ (availableAddresses allAddrs).2)
      allAddrs ∧
    ∀ a : GoStr,
      (availableAddresses allAddrs).1.countP (fun x => x == a) +
        (availableAddresses allAddrs).2.countP (fun x => x == a) =
        allAddrs.countP (fun x => x == a) := by
  have h1 := availableAddresses_eq_filter allAddrs
  have hperm : List.Perm
      ((availableAddresses allAddrs).1 ++ (availableAddresses allAddrs).2) allAddrs := by
    rw [h1]
    exact List.filter_append_perm _ allAddrs
  refine ⟨h1, hperm, fun a => ?_⟩
  have hc := hperm.countP_eq (fun x => x == a)
  rw [List.countP_append] at hc
  exact hc

/-- C9: the comparison used by the validator runs for a number of loop
iterations determined by the operand lengths alone, independent of where a
first mismatching byte occurs, and on byte strings it answers 1 exactly on
equality. -/
theorem constantTimeCompare_time_independent (x y u v : List Nat)
    (hx : x.length = u.length) (hy : y.length = v.length) :
    constantTimeCompareSteps x y = constantTimeCompareSteps u v ∧
    ((∀ b ∈ x, b < 256) → (∀ b ∈ y, b < 256) →
      (subtleConstantTimeCompare x y = 1 ↔ x = y)) := by
  constructor
  · unfold constantTimeCompareSteps
    simp only [ctLoop_snd]
    rw [hx, hy]
  · intro hbx hby
    exact subtleConstantTimeCompare_eq_one x y hbx hby

/-- Witness for C9 on two pairs of equal-length operands with different
contents. -/
theorem constantTimeCompare_time_independent_witness :
    constantTimeCompareSteps (gs "aaa") (gs "xyz") =
      constantTimeCompareSteps (gs "foo") (gs "bar") ∧
    (subtleConstantTimeCompare (gs "aaa") (gs "xyz") = 1 ↔ gs "aaa" = gs "xyz") := by
  have h := constantTimeCompare_time_independent (gs "aaa") (gs "xyz")
    (gs "foo") (gs "bar") (by decide) (by decide)
  exact ⟨h.1, h.2 (by decide) (by decide)⟩

/-- C10: both operations return exactly one of their two results: on every
failure the sequence is nil and the problem present, on success the sequence
is present and non-empty and the problem nil. -/
theorem validateDNS01_getAddrs_exclusive (va : DNSClient) (identifier : AcmeIdentifier)
    (challenge : Challenge) (hostname : GoStr) :
    (((validateDNS01 va identifier challenge).1.1 = none ∧
      ∃ p, (validateDNS01 va identifier challenge).1.2 = some p) ∨
     (∃ recs, (validateDNS01 va identifier challenge).1.1 = some recs ∧ recs ≠ [] ∧
      (validateDNS01 va identifier challenge).1.2 = none)) ∧
    (((getAddrs va hostname).1 = none ∧ ∃ p, (getAddrs va hostname).2 = some p) ∨
     (∃ addrs, (getAddrs va hostname).1 = some addrs ∧ addrs ≠ [] ∧
      (getAddrs va hostname).2 = none)) := by
  constructor
  · by_cases hty : identifier.idType = IdentifierDNS
    · cases hlk : va.lookupTXT (challengeSubdomain identifier) with
      | err e =>
        rw [validateDNS01_err_aux va identifier challenge e hty hlk]
        exact Or.inl ⟨rfl, _, rfl⟩
      | ok txts authorities =>
        cases txts with
        | nil =>
          rw [validateDNS01_empty_aux va identifier challenge authorities hty hlk]
          exact Or.inl ⟨rfl, _, rfl⟩
        | cons t0 ts =>
          cases hany : (t0 :: ts).any
              (fun element => subtleConstantTimeCompare element
                (authorizedKeysDigest challenge.providedKeyAuthorization) == 1) with
          | true =>
            rw [validateDNS01_anytrue_aux va identifier challenge t0 ts authorities
                  hty hlk hany]
            exact Or.inr ⟨_, rfl, by simp, rfl⟩
          | false =>
            rw [validateDNS01_anyfalse_aux va identifier challenge t0 ts authorities
                  hty hlk hany]
            exact Or.inl ⟨rfl, _, rfl⟩
    · rw [validateDNS01_non_dns_aux va identifier challenge hty]
      exact Or.inl ⟨rfl, _, rfl⟩
  · cases hlh : va.lookupHost hostname with
    | err e => simp [getAddrs, hlh]
    | ok addrs =>
      cases addrs with
      | nil => simp [getAddrs, hlh]
      | cons a rest =>
        refine Or.inr ⟨a :: rest, ?_, by simp, ?_⟩ <;> simp [getAddrs, hlh]

set_option maxRecDepth 10000 in
/-- FIPS 180-4 test vector: SHA-256 of the empty string. -/
theorem sha256_empty_vector :
    sha256 [] =
      [227, 176, 196, 66, 152, 252, 28, 20, 154, 251, 244, 200,
       153, 111, 185, 36, 39, 174, 65, 228, 100, 155, 147, 76,
       164, 149, 153, 27, 120, 82, 184, 85] := by
  decide

set_option maxRecDepth 10000 in
/-- FIPS 180-4 test vector: SHA-256 of `abc`, and its base64url-no-padding
form as used in DNS-01 TXT records. -/
theorem sha256_abc_vector :
    sha256 (gs "abc") =
      [186, 120, 22, 191, 143, 1, 207, 234, 65, 65, 64, 222,
       93, 174, 34, 35, 176, 3, 97, 163, 150, 23, 122, 156,
       180, 16, 255, 97, 242, 0, 21, 173] ∧
    authorizedKeysDigest (gs "abc") = gs "ungWv48Bz-pBQUDeXa4iI7ADYaOWF3qctBD_YfIAFa0" := by
  constructor <;> decide
